import Mathlib

/-!
Verification of the prompt-construction and request-orchestration core of
the ai-recipe-generator repository (src/app/routes/_index.tsx).

The embedding models the two server-side components the spec names:

* `generateRequest` (the spec calls it PromptBuilder.build): a pure
  function from structured params to the user-instruction text.
* `action` (the spec calls it CompletionOrchestrator.handle): extracts and
  coerces raw form fields, validates them, builds the prompt, performs one
  outbound chat-completion call, and maps the response or failure to a
  result.

JavaScript numeric semantics matter here: the source coerces raw form text
with unary plus (ToNumber), whose result on non-numeric text is NaN, and
NaN propagates through `+` and makes `<` comparisons false.  Numbers are
therefore modelled by `JSNum`: an integer value or NaN.  (The form fields
at issue are integer-valued; fractional values play no role in any
property considered here.)
-/

/-- A JavaScript number as it arises in this program: an integer value or
NaN.  The form fields (`numAdults`, `numChildren`) are integer-valued, so
the integer/NaN fragment of JS numbers is the relevant one. -/
inductive JSNum where
  | num (v : Int)
  | nan
deriving DecidableEq, Repr

namespace JSNum

/-- JS truthiness of a number: falsy exactly for 0 and NaN. -/
def truthy : JSNum → Bool
  | .num v => v != 0
  | .nan => false

/-- JS `x > 1` on a number: false whenever the operand is NaN. -/
def gtOne : JSNum → Bool
  | .num v => decide (1 < v)
  | .nan => false

/-- JS `+` on numbers: NaN absorbs. -/
def add : JSNum → JSNum → JSNum
  | .num a, .num b => .num (a + b)
  | _, _ => .nan

/-- JS `<` on numbers: false whenever either operand is NaN. -/
def lt : JSNum → JSNum → Bool
  | .num a, .num b => a < b
  | _, _ => false

end JSNum

/-- Decimal digit character for `d` (meant for `d < 10`). -/
def digitChar (d : Nat) : Char := Char.ofNat (48 + d)

/-- Digit accumulator loop for `natDigits`; the first argument is fuel
(never exhausted when it starts at the number itself, since dividing by
ten strictly decreases a number that is at least ten). -/
def natDigitsGo : Nat → Nat → List Char → List Char
  | 0, _, acc => acc
  | fuel + 1, n, acc =>
    if n < 10 then digitChar n :: acc
    else natDigitsGo fuel (n / 10) (digitChar (n % 10) :: acc)

/-- Decimal digit string of a natural number, most significant digit
first; JS renders integer-valued numbers this way. -/
def natDigits (n : Nat) : List Char := natDigitsGo (n + 1) n []

/-- JS ToString of a number in this program: decimal digits with a leading
minus sign for negative integers; NaN renders as the literal text NaN. -/
def jsNumToString : JSNum → String
  | .num v => if v < 0 then "-" ++ (natDigits v.natAbs).asString else (natDigits v.toNat).asString
  | .nan => "NaN"

/-- Value of a list of decimal digit characters, read left to right. -/
def digitsVal (cs : List Char) : Option Nat :=
  if cs = [] then none
  else if cs.all Char.isDigit then
    some (cs.foldl (fun a ch => a * 10 + (ch.toNat - 48)) 0)
  else none

/-- The leading/trailing whitespace strip that JS ToNumber performs on a
string before reading it as a numeric literal. -/
def jsTrim (s : String) : String :=
  ((s.data.dropWhile Char.isWhitespace).reverse.dropWhile Char.isWhitespace).reverse.asString

/-- JS ToNumber applied to a string — the unary plus in the action.  Trims
whitespace; the empty (or whitespace-only) string gives 0; an optional
sign followed by decimal digits gives that integer; any other text gives
NaN.  (Restricted to the integer-literal fragment: the coerced form
fields are integers, and every claim quantifies over integer-valued or
non-numeric text.) -/
def jsStringToNumber (s : String) : JSNum :=
  let t := jsTrim s
  if t = "" then .num 0
  else
    match t.data with
    | '-' :: rest =>
      match digitsVal rest with
      | some n => .num (-(n : Int))
      | none => .nan
    | '+' :: rest =>
      match digitsVal rest with
      | some n => .num (n : Int)
      | none => .nan
    | l =>
      match digitsVal l with
      | some n => .num (n : Int)
      | none => .nan

/-- The fixed system-role constant `ROLE` of the source. -/
def ROLE : String :=
  "You are a trustworthy and experienced chef\x27s assistant with an excellent grasp of cooking. You are also pragmatic and focus on dishes that are easy to assemble and use minimal ingredients."

/-- The params record passed to `generateRequest` (the spec's
RecipeRequestParams).  The numeric fields carry JS numbers, since the
action passes them through from ToNumber coercion unchecked. -/
structure RecipeParams where
  ingredientsList : String
  equipmentList : String
  numAdults : JSNum
  numChildren : JSNum
  meal : String
deriving DecidableEq, Repr

/-- The adults interpolation of the household clause:
`numAdults ? (numAdults > 1 ? numAdults + ' adults' : '1 adult') : ''`. -/
def adultsClause (numAdults : JSNum) : String :=
  if numAdults.truthy then
    (if numAdults.gtOne then jsNumToString numAdults ++ " adults" else "1 adult")
  else ""

/-- The children interpolation of the household clause:
`numChildren ? (numChildren > 1 ? numChildren + ' children' : '1 child') : ''`. -/
def childrenClause (numChildren : JSNum) : String :=
  if numChildren.truthy then
    (if numChildren.gtOne then jsNumToString numChildren ++ " children" else "1 child")
  else ""

/-- The `peopleStrings` template literal of `generateRequest`: adults
clause, then the separator exactly when `numAdults && numChildren` is
truthy, then the children clause. -/
def peopleStrings (numAdults numChildren : JSNum) : String :=
  adultsClause numAdults
    ++ (if numAdults.truthy && numChildren.truthy then " and " else "")
    ++ childrenClause numChildren

/-- `generateRequest` of the source (the spec's PromptBuilder.build): the
fixed instruction template with the params and the household clause
interpolated. -/
def generateRequest (p : RecipeParams) : String :=
  "Try to create a recipe with only these available ingredients: "
    ++ p.ingredientsList
    ++ ".\n  And available equipment: "
    ++ p.equipmentList
    ++ ".\n  This is for a "
    ++ p.meal
    ++ " for "
    ++ peopleStrings p.numAdults p.numChildren
    ++ ".\n  Not all ingredients or equipment need to be used. Do not assume I have other equipment or that I have any other ingredients.\n  If there\x27s no viable recipe, such as the ingredients list doesn\x27t include any protein,\n  do not assume I have other ingredients or equipment and tell me that there\x27s no recipe."

/-- The raw form data the action reads: `formData.get` for each of the
five field names, `none` when the field is absent. -/
structure RawFormData where
  ingredientsList : Option String
  equipmentList : Option String
  numAdults : Option String
  numChildren : Option String
  mealName : Option String
deriving DecidableEq, Repr

/-- One message of the outbound chat-completion request. -/
structure ChatMessage where
  role : String
  content : String
deriving DecidableEq, Repr

/-- The outbound chat-completion request body: model identifier and the
ordered two-message conversation. -/
structure ChatCompletionRequest where
  model : String
  messages : List ChatMessage
deriving DecidableEq, Repr

/-- A response message; its content field may be absent. -/
structure RespMessage where
  content : Option String
deriving DecidableEq, Repr

/-- One choice of the upstream response; the message field may be absent
(the source reads it with optional chaining). -/
structure ChatChoice where
  message : Option RespMessage
deriving DecidableEq, Repr

/-- The consumed part of the upstream response: the choices array. -/
structure ChatResponseData where
  choices : List ChatChoice
deriving DecidableEq, Repr

/-- Observable outcome of one `action` invocation: the returned value
(`none` for the null returns, `some text` for `{ generatedOutput }`), the
request sent upstream when the call was made, and how many times
`console.error` ran. -/
structure HandleResult where
  result : Option String
  sentRequest : Option ChatCompletionRequest
  errorLogs : Nat
deriving DecidableEq, Repr

/-- Whether the outbound call was performed. -/
def HandleResult.upstreamCalled (r : HandleResult) : Bool :=
  r.sentRequest.isSome

/-- Field extraction and coercion of the action (source lines 60-66):
`${formData.get(name) ?? ''}` for the two lists, unary plus over
`${formData.get(name) ?? 0}` for the two counts (an absent count field
stringifies the default 0 to "0" before coercion), and `'dinner'` as the
default meal. -/
def coercedParams (raw : RawFormData) : RecipeParams :=
  { ingredientsList := raw.ingredientsList.getD "",
    equipmentList := raw.equipmentList.getD "",
    numAdults := jsStringToNumber (raw.numAdults.getD "0"),
    numChildren := jsStringToNumber (raw.numChildren.getD "0"),
    meal := raw.mealName.getD "dinner" }

/-- The `completionRequest` the action builds (source lines 95-104):
fixed model identifier, system message `ROLE`, user message
`generateRequest params`. -/
def completionRequestFor (p : RecipeParams) : ChatCompletionRequest :=
  { model := "gpt-3.5-turbo",
    messages := [{ role := "system", content := ROLE },
                 { role := "user", content := generateRequest p }] }

/-- The try/catch block of the action (source lines 106-115): `.error` is
a thrown failure of `openai.createChatCompletion` (network, API, auth —
the payload is what `JSON.stringify` logs), caught, logged once, and
collapsed to null.  On a resolved response the source reads
`chatCompletion.data.choices[0].message?.content ?? ''`; when the choices
array is empty, reading `.message` of `choices[0]` (undefined) throws a
TypeError inside the try block, so that case also lands in the catch. -/
def tryCompletion (req : ChatCompletionRequest)
    (upstream : ChatCompletionRequest → Except String ChatResponseData) : HandleResult :=
  match upstream req with
  | .error _ => { result := none, sentRequest := some req, errorLogs := 1 }
  | .ok data =>
    match data.choices.head? with
    | none => { result := none, sentRequest := some req, errorLogs := 1 }
    | some choice =>
      { result := some ((choice.message.bind RespMessage.content).getD ""),
        sentRequest := some req, errorLogs := 0 }

/-- The `action` of the source (the spec's
CompletionOrchestrator.handle), with the outbound call abstracted as the
`upstream` argument: coerce the raw fields, short-circuit to null on the
validation guard `!ingredientsList || !equipmentList ||
numAdults + numChildren < 1` (source lines 68-70), otherwise build the
prompt and request and run the guarded call. -/
def action (raw : RawFormData) (upstream : ChatCompletionRequest → Except String ChatResponseData) :
    HandleResult :=
  let p := coercedParams raw
  if p.ingredientsList = "" ∨ p.equipmentList = "" ∨ (p.numAdults.add p.numChildren).lt (.num 1) = true
  then { result := none, sentRequest := none, errorLogs := 0 }
  else tryCompletion (completionRequestFor p) upstream

/-! ### Substring machinery

An executable substring test on character lists, used to state the
claims about literal text appearing in the built strings. -/

/-- `isPrefixL n h` holds when `n` is a prefix of `h`. -/
def isPrefixL : List Char → List Char → Bool
  | [], _ => true
  | _ :: _, [] => false
  | a :: as, b :: bs => a == b && isPrefixL as bs

/-- `containsSub n h` holds when `n` occurs contiguously inside `h`. -/
def containsSub (n : List Char) : List Char → Bool
  | [] => isPrefixL n []
  | c :: hs => isPrefixL n (c :: hs) || containsSub n hs

theorem isPrefixL_append_self (n t : List Char) : isPrefixL n (n ++ t) = true := by
  induction n with
  | nil => rfl
  | cons a as ih => simp [isPrefixL, ih]

theorem containsSub_of_isPrefixL {n h : List Char} (hp : isPrefixL n h = true) :
    containsSub n h = true := by
  cases h with
  | nil => simpa [containsSub] using hp
  | cons c hs => simp [containsSub, hp]

theorem containsSub_middle (x n t : List Char) : containsSub n (x ++ (n ++ t)) = true := by
  induction x with
  | nil => exact containsSub_of_isPrefixL (isPrefixL_append_self n t)
  | cons c cs ih => simp [containsSub, ih]

theorem mem_of_isPrefixL {n h : List Char} (hp : isPrefixL n h = true) {c : Char}
    (hc : c ∈ n) : c ∈ h := by
  induction n generalizing h with
  | nil => cases hc
  | cons a as ih =>
    cases h with
    | nil => simp [isPrefixL] at hp
    | cons b bs =>
      simp only [isPrefixL, Bool.and_eq_true, beq_iff_eq] at hp
      rcases hc with _ | hc
      · simp [hp.1]
      · exact List.mem_cons_of_mem _ (ih hp.2 (by assumption))

theorem mem_of_containsSub {n h : List Char} (hs : containsSub n h = true) {c : Char}
    (hc : c ∈ n) : c ∈ h := by
  induction h with
  | nil => exact mem_of_isPrefixL hs hc
  | cons b bs ih =>
    simp only [containsSub, Bool.or_eq_true] at hs
    rcases hs with hp | htail
    · exact mem_of_isPrefixL hp hc
    · exact List.mem_cons_of_mem _ (ih htail)

/-! ### Characters of rendered numbers -/

theorem digitChar_toNat_lt {d : Nat} (hd : d < 10) : (digitChar d).toNat < 58 := by
  interval_cases d <;> decide

theorem natDigitsGo_chars (fuel : Nat) : ∀ (n : Nat) (acc : List Char),
    (∀ c ∈ acc, c.toNat < 58) → ∀ c ∈ natDigitsGo fuel n acc, c.toNat < 58 := by
  induction fuel with
  | zero =>
    intro n acc hacc c hc
    exact hacc c hc
  | succ f ih =>
    intro n acc hacc c hc
    simp only [natDigitsGo] at hc
    by_cases h : n < 10
    · rw [if_pos h] at hc
      rcases List.mem_cons.mp hc with rfl | hm
      · exact digitChar_toNat_lt h
      · exact hacc _ hm
    · rw [if_neg h] at hc
      refine ih (n / 10) _ ?_ c hc
      intro d hd
      rcases List.mem_cons.mp hd with rfl | hm
      · exact digitChar_toNat_lt (Nat.mod_lt _ (by decide))
      · exact hacc _ hm

theorem natDigits_chars (n : Nat) : ∀ c ∈ natDigits n, c.toNat < 58 :=
  natDigitsGo_chars (n + 1) n [] (by intro c hc; cases hc)

theorem asString_data (l : List Char) : (List.asString l).data = l := rfl

theorem jsNumToString_chars (v : Int) : ∀ c ∈ (jsNumToString (.num v)).data, c.toNat < 58 := by
  intro c hc
  simp only [jsNumToString] at hc
  split at hc
  · rw [String.data_append] at hc
    rcases List.mem_append.mp hc with hm | hm
    · rw [show ("-" : String).data = [Char.ofNat 45] from rfl] at hm
      rcases List.mem_singleton.mp hm with rfl
      decide
    · exact natDigits_chars _ _ (by rwa [asString_data] at hm)
  · exact natDigits_chars _ _ (by rwa [asString_data] at hc)

/-! ### The household clause -/

theorem adultsClause_no_n (j : JSNum) : 'n' ∉ (adultsClause j).data := by
  cases j with
  | nan => intro hm; exact absurd hm (by decide)
  | num v =>
    simp only [adultsClause]
    split
    · split
      · intro hm
        rw [String.data_append] at hm
        rcases List.mem_append.mp hm with h1 | h1
        · exact absurd (jsNumToString_chars v _ h1) (by decide)
        · exact absurd h1 (by decide)
      · intro hm; exact absurd hm (by decide)
    · intro hm; exact absurd hm (by decide)

theorem childrenClause_no_a (j : JSNum) : 'a' ∉ (childrenClause j).data := by
  cases j with
  | nan => intro hm; exact absurd hm (by decide)
  | num v =>
    simp only [childrenClause]
    split
    · split
      · intro hm
        rw [String.data_append] at hm
        rcases List.mem_append.mp hm with h1 | h1
        · exact absurd (jsNumToString_chars v _ h1) (by decide)
        · exact absurd h1 (by decide)
      · intro hm; exact absurd hm (by decide)
    · intro hm; exact absurd hm (by decide)

theorem peopleStrings_adultsOnly (a : JSNum) : peopleStrings a (.num 0) = adultsClause a := by
  apply String.ext
  simp [peopleStrings, childrenClause, JSNum.truthy, String.data_append]

theorem peopleStrings_childrenOnly (c : JSNum) : peopleStrings (.num 0) c = childrenClause c := by
  apply String.ext
  simp [peopleStrings, adultsClause, JSNum.truthy, String.data_append]

theorem peopleStrings_both {a c : Int} (ha : 0 < a) (hc : 0 < c) :
    (peopleStrings (.num a) (.num c)).data
      = (adultsClause (.num a)).data
        ++ ((" and " : String).data ++ (childrenClause (.num c)).data) := by
  have ht1 : (JSNum.num a).truthy = true := by simp [JSNum.truthy]; omega
  have ht2 : (JSNum.num c).truthy = true := by simp [JSNum.truthy]; omega
  simp [peopleStrings, ht1, ht2, String.data_append]

/-- C4: the household clause of `generateRequest` renders "1 adult",
"2 adults", "1 child", "2 adults and 3 children" and the empty clause at
the five specified count pairs; for all non-negative integer counts the
" and " separator occurs in the clause exactly when both counts are
positive; and a zero count makes the clause collapse to the other side's
clause alone. -/
theorem C4_household_clause :
    peopleStrings (.num 1) (.num 0) = "1 adult" ∧
    peopleStrings (.num 2) (.num 0) = "2 adults" ∧
    peopleStrings (.num 0) (.num 1) = "1 child" ∧
    peopleStrings (.num 2) (.num 3) = "2 adults and 3 children" ∧
    peopleStrings (.num 0) (.num 0) = "" ∧
    (∀ a c : Int, 0 ≤ a → 0 ≤ c →
      (containsSub (" and ").data (peopleStrings (.num a) (.num c)).data = true
        ↔ 0 < a ∧ 0 < c)) ∧
    (∀ a : JSNum, peopleStrings a (.num 0) = adultsClause a) ∧
    (∀ c : JSNum, peopleStrings (.num 0) c = childrenClause c) := by
  refine ⟨by decide, by decide, by decide, by decide, by decide, ?_,
    peopleStrings_adultsOnly, peopleStrings_childrenOnly⟩
  intro a c ha hc
  constructor
  · intro hsub
    by_contra hnot
    have hzero : a = 0 ∨ c = 0 := by
      by_contra hz
      push_neg at hz
      exact hnot ⟨lt_of_le_of_ne ha (Ne.symm hz.1), lt_of_le_of_ne hc (Ne.symm hz.2)⟩
    rcases hzero with rfl | rfl
    · rw [peopleStrings_childrenOnly] at hsub
      exact childrenClause_no_a _ (mem_of_containsSub hsub (by decide))
    · rw [peopleStrings_adultsOnly] at hsub
      exact adultsClause_no_n _ (mem_of_containsSub hsub (by decide))
  · rintro ⟨ha0, hc0⟩
    rw [peopleStrings_both ha0 hc0]
    exact containsSub_middle _ _ _

/-- Witness for C4 at concrete counts. -/
theorem C4_witness :
    (containsSub (" and ").data (peopleStrings (.num 2) (.num 3)).data = true
      ↔ 0 < (2 : Int) ∧ 0 < (3 : Int)) ∧
    peopleStrings (.num 5) (.num 0) = adultsClause (.num 5) :=
  ⟨C4_household_clause.2.2.2.2.2.1 2 3 (by decide) (by decide),
   C4_household_clause.2.2.2.2.2.2.1 (.num 5)⟩

/-- C10: a negative count is truthy but not greater than one, so the
adults interpolation renders "1 adult" for every negative numAdults and
the children interpolation renders "1 child" for every negative
numChildren. -/
theorem C10_negative_counts :
    (∀ a : Int, a < 0 →
      adultsClause (.num a) = "1 adult" ∧ peopleStrings (.num a) (.num 0) = "1 adult") ∧
    (∀ c : Int, c < 0 →
      childrenClause (.num c) = "1 child" ∧ peopleStrings (.num 0) (.num c) = "1 child") := by
  constructor
  · intro a ha
    have ht : (JSNum.num a).truthy = true := by simp [JSNum.truthy]; omega
    have hg : (JSNum.num a).gtOne = false := by simp [JSNum.gtOne]; omega
    have h1 : adultsClause (.num a) = "1 adult" := by simp [adultsClause, ht, hg]
    exact ⟨h1, by rw [peopleStrings_adultsOnly, h1]⟩
  · intro c hcneg
    have ht : (JSNum.num c).truthy = true := by simp [JSNum.truthy]; omega
    have hg : (JSNum.num c).gtOne = false := by simp [JSNum.gtOne]; omega
    have h1 : childrenClause (.num c) = "1 child" := by simp [childrenClause, ht, hg]
    exact ⟨h1, by rw [peopleStrings_childrenOnly, h1]⟩

/-- Witness for C10 at counts -1 and -2. -/
theorem C10_witness :
    adultsClause (.num (-1)) = "1 adult" ∧ childrenClause (.num (-2)) = "1 child" :=
  ⟨(C10_negative_counts.1 (-1) (by decide)).1, (C10_negative_counts.2 (-2) (by decide)).1⟩

/-- C7: `generateRequest` is deterministic — two invocations on identical
params return identical instruction text.  (Purity holds by construction:
the embedding is a total function of its params, mirroring the source,
which reads no state and performs no I/O.) -/
theorem C7_deterministic (p1 p2 : RecipeParams) (h : p1 = p2) :
    generateRequest p1 = generateRequest p2 := by rw [h]

/-- Witness for C7 at a concrete params record. -/
theorem C7_witness :
    generateRequest ⟨"Salt", "Stove top", .num 1, .num 0, "dinner"⟩
      = generateRequest ⟨"Salt", "Stove top", .num 1, .num 0, "dinner"⟩ :=
  C7_deterministic _ _ rfl

/-! ### Orchestrator lemmas -/

theorem tryCompletion_sent (req : ChatCompletionRequest)
    (upstream : ChatCompletionRequest → Except String ChatResponseData) :
    (tryCompletion req upstream).sentRequest = some req := by
  rcases hup : upstream req with e | data
  · simp [tryCompletion, hup]
  · rcases hd : data.choices.head? with _ | c <;> simp [tryCompletion, hup, hd]

theorem action_invalid (raw : RawFormData)
    (upstream : ChatCompletionRequest → Except String ChatResponseData)
    (h : (coercedParams raw).ingredientsList = "" ∨ (coercedParams raw).equipmentList = "" ∨
      ((coercedParams raw).numAdults.add (coercedParams raw).numChildren).lt (.num 1) = true) :
    action raw upstream = { result := none, sentRequest := none, errorLogs := 0 } := by
  simp only [action]
  rw [if_pos h]

theorem action_valid (raw : RawFormData)
    (upstream : ChatCompletionRequest → Except String ChatResponseData)
    (h1 : (coercedParams raw).ingredientsList ≠ "")
    (h2 : (coercedParams raw).equipmentList ≠ "")
    (h3 : ((coercedParams raw).numAdults.add (coercedParams raw).numChildren).lt (.num 1) = false) :
    action raw upstream = tryCompletion (completionRequestFor (coercedParams raw)) upstream := by
  have hcond : ¬((coercedParams raw).ingredientsList = "" ∨ (coercedParams raw).equipmentList = "" ∨
      ((coercedParams raw).numAdults.add (coercedParams raw).numChildren).lt (.num 1) = true) := by
    rintro (h | h | h)
    · exact h1 h
    · exact h2 h
    · simp [h3] at h
  simp only [action]
  rw [if_neg hcond]

/-! ### The claims about the action -/

/-- C2: whenever the coerced ingredients list is empty, or the coerced
equipment list is empty, or the coerced headcount sum compares below one,
the action returns null with no outbound call and no log; in particular a
coerced headcount of 0 adults and 0 children is rejected regardless of
every other field. -/
theorem C2_validation_short_circuit :
    (∀ (raw : RawFormData) (upstream : ChatCompletionRequest → Except String ChatResponseData),
      ((coercedParams raw).ingredientsList = "" ∨ (coercedParams raw).equipmentList = "" ∨
        ((coercedParams raw).numAdults.add (coercedParams raw).numChildren).lt (.num 1) = true) →
      action raw upstream = { result := none, sentRequest := none, errorLogs := 0 }) ∧
    (∀ (raw : RawFormData) (upstream : ChatCompletionRequest → Except String ChatResponseData),
      (coercedParams raw).numAdults = .num 0 → (coercedParams raw).numChildren = .num 0 →
      action raw upstream = { result := none, sentRequest := none, errorLogs := 0 }) := by
  constructor
  · exact action_invalid
  · intro raw upstream ha hc
    exact action_invalid raw upstream (.inr (.inr (by rw [ha, hc]; rfl)))

/-- Witness for C2: an empty ingredients field, and a zero headcount. -/
theorem C2_witness :
    action ⟨some "", some "Stove top", some "2", some "0", none⟩ (fun _ => .error "network")
      = { result := none, sentRequest := none, errorLogs := 0 } ∧
    action ⟨some "Salt", some "Stove top", some "0", none, none⟩ (fun _ => .error "network")
      = { result := none, sentRequest := none, errorLogs := 0 } :=
  ⟨C2_validation_short_circuit.1 _ _ (.inl rfl),
   C2_validation_short_circuit.2 _ _ rfl rfl⟩

/-- C3: when validation passes and the upstream call resolves with a
first choice whose message content is missing or empty (or whose message
field is itself missing), the action returns the success value carrying
the empty string, not null. -/
theorem C3_empty_content (raw : RawFormData)
    (upstream : ChatCompletionRequest → Except String ChatResponseData)
    (resp : ChatResponseData) (choice : ChatChoice)
    (h1 : (coercedParams raw).ingredientsList ≠ "")
    (h2 : (coercedParams raw).equipmentList ≠ "")
    (h3 : ((coercedParams raw).numAdults.add (coercedParams raw).numChildren).lt (.num 1) = false)
    (hup : upstream (completionRequestFor (coercedParams raw)) = .ok resp)
    (hhead : resp.choices.head? = some choice)
    (hcontent : choice.message.bind RespMessage.content = none ∨
      choice.message.bind RespMessage.content = some "") :
    (action raw upstream).result = some "" := by
  rw [action_valid raw upstream h1 h2 h3]
  simp only [tryCompletion, hup, hhead]
  rcases hcontent with h | h <;> rw [h] <;> rfl

/-- Witness for C3: a resolved response whose single choice has empty
content. -/
theorem C3_witness :
    (action ⟨some "Salt", some "Stove top", some "2", some "0", none⟩
      (fun _ => .ok { choices := [{ message := some { content := some "" } }] })).result
      = some "" :=
  C3_empty_content _ _ { choices := [{ message := some { content := some "" } }] }
    { message := some { content := some "" } }
    (by decide) (by decide) rfl rfl rfl (.inr rfl)

/-- C5: when validation passes and the upstream call throws, the action
catches the failure, logs it exactly once, and returns null; no exception
propagates (the embedding is a total function). -/
theorem C5_catch_logs_once (raw : RawFormData)
    (upstream : ChatCompletionRequest → Except String ChatResponseData) (e : String)
    (h1 : (coercedParams raw).ingredientsList ≠ "")
    (h2 : (coercedParams raw).equipmentList ≠ "")
    (h3 : ((coercedParams raw).numAdults.add (coercedParams raw).numChildren).lt (.num 1) = false)
    (hup : upstream (completionRequestFor (coercedParams raw)) = .error e) :
    (action raw upstream).result = none ∧ (action raw upstream).errorLogs = 1 ∧
      (action raw upstream).upstreamCalled = true := by
  have ha := action_valid raw upstream h1 h2 h3
  rw [ha]
  simp [tryCompletion, hup, HandleResult.upstreamCalled]

/-- Witness for C5: a throwing upstream call. -/
theorem C5_witness :
    (action ⟨some "Salt", some "Stove top", some "2", some "0", none⟩
        (fun _ => .error "ECONNREFUSED")).result = none ∧
    (action ⟨some "Salt", some "Stove top", some "2", some "0", none⟩
        (fun _ => .error "ECONNREFUSED")).errorLogs = 1 ∧
    (action ⟨some "Salt", some "Stove top", some "2", some "0", none⟩
        (fun _ => .error "ECONNREFUSED")).upstreamCalled = true :=
  C5_catch_logs_once _ _ "ECONNREFUSED" (by decide) (by decide) rfl rfl

/-- C9: when validation passes and the upstream call resolves with an
empty choices array, reading the first choice throws inside the try
block, so the action takes the failure path: null result and one log. -/
theorem C9_empty_choices (raw : RawFormData)
    (upstream : ChatCompletionRequest → Except String ChatResponseData) (resp : ChatResponseData)
    (h1 : (coercedParams raw).ingredientsList ≠ "")
    (h2 : (coercedParams raw).equipmentList ≠ "")
    (h3 : ((coercedParams raw).numAdults.add (coercedParams raw).numChildren).lt (.num 1) = false)
    (hup : upstream (completionRequestFor (coercedParams raw)) = .ok resp)
    (hchoices : resp.choices = []) :
    (action raw upstream).result = none ∧ (action raw upstream).errorLogs = 1 := by
  have ha := action_valid raw upstream h1 h2 h3
  rw [ha]
  simp [tryCompletion, hup, hchoices]

/-- Witness for C9: a resolved response with no choices. -/
theorem C9_witness :
    (action ⟨some "Salt", some "Stove top", some "2", some "0", none⟩
        (fun _ => .ok { choices := [] })).result = none ∧
    (action ⟨some "Salt", some "Stove top", some "2", some "0", none⟩
        (fun _ => .ok { choices := [] })).errorLogs = 1 :=
  C9_empty_choices _ _ { choices := [] } (by decide) (by decide) rfl rfl rfl

/-- C8: the emptiness check is an exact string-emptiness test, so a
whitespace-only ingredients field (with non-empty equipment and an
integer headcount of at least one) passes validation and the prompt is
built and sent upstream. -/
theorem C8_whitespace_passes (raw : RawFormData)
    (upstream : ChatCompletionRequest → Except String ChatResponseData)
    (s : String) (a b : Int)
    (hs : raw.ingredientsList = some s)
    (hne : s ≠ "")
    (hws : s.data.all Char.isWhitespace = true)
    (h2 : (coercedParams raw).equipmentList ≠ "")
    (hA : (coercedParams raw).numAdults = .num a)
    (hB : (coercedParams raw).numChildren = .num b)
    (hsum : 1 ≤ a + b) :
    (action raw upstream).sentRequest = some (completionRequestFor (coercedParams raw)) := by
  have h1 : (coercedParams raw).ingredientsList ≠ "" := by
    simpa [coercedParams, hs] using hne
  have h3 : ((coercedParams raw).numAdults.add (coercedParams raw).numChildren).lt (.num 1)
      = false := by
    rw [hA, hB]
    simp [JSNum.add, JSNum.lt]
    omega
  rw [action_valid raw upstream h1 h2 h3]
  exact tryCompletion_sent _ _

/-- Witness for C8: a single-space ingredients field. -/
theorem C8_witness :
    (action ⟨some " ", some "Stove top", some "2", some "0", none⟩
        (fun _ => .error "network")).sentRequest
      = some (completionRequestFor (coercedParams ⟨some " ", some "Stove top", some "2", some "0", none⟩)) :=
  C8_whitespace_passes _ _ " " 2 0 rfl (by decide) (by decide) (by decide) rfl rfl (by decide)

/-- C1 counterexample: the raw field "abc" coerces to NaN, not 0, and an
input with non-numeric numAdults, numChildren 0 and non-empty lists is
not rejected by the headcount validation — the call is made and its text
is returned. -/
theorem C1_counterexample :
    jsStringToNumber "abc" = JSNum.nan ∧
    (action ⟨some "Salt, Pepper", some "Stove top", some "abc", some "0", none⟩
        (fun _ => .ok { choices := [{ message := some { content := some "a recipe" } }] })).result
      = some "a recipe" ∧
    (action ⟨some "Salt, Pepper", some "Stove top", some "abc", some "0", none⟩
        (fun _ => .ok { choices := [{ message := some { content := some "a recipe" } }] })).upstreamCalled
      = true := by
  refine ⟨rfl, rfl, rfl⟩

/-- C1 amended: unary-plus coercion of non-numeric text yields NaN, the
sum with NaN is NaN, and a NaN headcount makes the `< 1` guard false, so
such an input passes the headcount validation and the outbound call is
performed instead of the input being rejected. -/
theorem C1_amended_nan_not_rejected (raw : RawFormData)
    (upstream : ChatCompletionRequest → Except String ChatResponseData)
    (h1 : (coercedParams raw).ingredientsList ≠ "")
    (h2 : (coercedParams raw).equipmentList ≠ "")
    (hnan : (coercedParams raw).numAdults = .nan) :
    (action raw upstream).upstreamCalled = true := by
  have h3 : ((coercedParams raw).numAdults.add (coercedParams raw).numChildren).lt (.num 1)
      = false := by
    rw [hnan]
    cases (coercedParams raw).numChildren <;> rfl
  rw [action_valid raw upstream h1 h2 h3]
  rw [HandleResult.upstreamCalled, tryCompletion_sent]
  rfl

/-- Witness for the amended C1: the non-numeric count "abc". -/
theorem C1_amended_witness :
    (action ⟨some "Salt, Pepper", some "Stove top", some "abc", some "0", none⟩
        (fun _ => .error "network")).upstreamCalled = true :=
  C1_amended_nan_not_rejected _ _ (by decide) (by decide) rfl

set_option maxRecDepth 8000 in
/-- C6: at the specified concrete params the built instruction contains
the literal ingredient list, equipment list, household text and meal, and
the no-viable-recipe fallback sentence. -/
theorem C6_instruction_contains_literals :
    containsSub ("Salt, Pepper").data
      (generateRequest ⟨"Salt, Pepper", "Stove top", .num 2, .num 0, "dinner"⟩).data = true ∧
    containsSub ("Stove top").data
      (generateRequest ⟨"Salt, Pepper", "Stove top", .num 2, .num 0, "dinner"⟩).data = true ∧
    containsSub ("2 adults").data
      (generateRequest ⟨"Salt, Pepper", "Stove top", .num 2, .num 0, "dinner"⟩).data = true ∧
    containsSub ("dinner").data
      (generateRequest ⟨"Salt, Pepper", "Stove top", .num 2, .num 0, "dinner"⟩).data = true ∧
    containsSub ("If there\x27s no viable recipe, such as the ingredients list doesn\x27t include any protein,\n  do not assume I have other ingredients or equipment and tell me that there\x27s no recipe.").data
      (generateRequest ⟨"Salt, Pepper", "Stove top", .num 2, .num 0, "dinner"⟩).data = true := by
  refine ⟨?_, ?_, ?_, ?_, ?_⟩ <;> decide
